import Mathlib

/-!
Verification development for `src/train.py` (DQN navigation training script).

The script's training loop `train_agent`, the plotting helper `plot_scores`
and the driver `main` are embedded shallowly.  Scores, rewards and epsilon
are modelled as rationals; the external collaborators (the Unity environment
and the `agent` module, which is imported by the script but not part of this
repository) are modelled as records of the functions the loop calls on them.
-/

/-- An observation vector handed out by the environment
(`env_info.vector_observations[0]`). -/
abbrev StateV := List ℚ

/-- External environment collaborator.  `reset` models
`env.reset(train_mode=True)[brain_name]` returning the initial observation;
`step` models `env.step(action)[brain_name]` returning the next observation,
the reward and the done flag, threading an abstract internal state `σ`. -/
structure Env (σ : Type) where
  reset : σ → σ × StateV
  step : σ → Nat → σ × StateV × ℚ × Bool

/-- External agent collaborator (the `Agent` class imported from `agent`):
`act state eps` picks an action, `step` feeds one transition back,
threading an abstract internal state `α`. -/
structure AgentM (α : Type) where
  act : α → StateV → ℚ → Nat
  step : α → StateV → Nat → ℚ → StateV → Bool → α

/-- The `np.mean` of a list of rationals (sum divided by length). -/
def npMean (w : List ℚ) : ℚ := w.sum / (w.length : ℚ)

/-- Appending to `scores_window = deque(maxlen=100)` (train.py:53,82):
once the deque holds 100 entries, appending drops the leftmost entry. -/
def windowAppend (w : List ℚ) (s : ℚ) : List ℚ :=
  if w.length < 100 then w ++ [s] else w.tail ++ [s]

/-- The inner step loop of `train_agent` (train.py:65-80):
`for _ in range(max_t)` with an early `break` on `done`.
Returns the final agent state, environment state and accumulated score. -/
def runSteps {α σ : Type} (ag : AgentM α) (env : Env σ) (eps : ℚ) :
    Nat → α → σ → StateV → ℚ → α × σ × ℚ
  | 0, a, s, _, score => (a, s, score)
  | Nat.succ t, a, s, st, score =>
    let action := ag.act a st eps
    let r := env.step s action
    let next_state := r.2.1
    let reward := r.2.2.1
    let done := r.2.2.2
    let a' := ag.step a st action reward next_state done
    let score' := score + reward
    if done then (a', r.1, score') else runSteps ag env eps t a' r.1 next_state score'

/-- The mutable state of `train_agent`'s episode loop.  Besides the
variables of the script (`scores`, `scores_window`, `eps`, `success` and the
agent/environment collaborators) we record which episode, if any, triggered
the success branch (`solvedEp`) and how many success notifications
(`tqdm.write('Solved in ...')`, train.py:93) were emitted (`notifs`). -/
structure LoopState (α σ : Type) where
  agent : α
  envSt : σ
  scores : List ℚ
  scores_window : List ℚ
  eps : ℚ
  success : Bool
  solvedEp : Option Nat
  notifs : Nat

/-- Loop state before the first episode (train.py:51-56). -/
def initState {α σ : Type} (a0 : α) (s0 : σ) (eps_start : ℚ) : LoopState α σ :=
  { agent := a0, envSt := s0, scores := [], scores_window := [], eps := eps_start,
    success := false, solvedEp := none, notifs := 0 }

/-- One iteration of the `for i_episode in t` loop of `train_agent`
(train.py:58-94): reset the environment, run the inner step loop, append
the episode score to `scores` and `scores_window`, decay epsilon with
`eps = max(eps_end, eps_decay * eps)`, and fire the success branch when the
flag is still false and the window mean reaches the threshold. -/
def episodeBody {α σ : Type} (ag : AgentM α) (env : Env σ) (max_t : Nat)
    (eps_end eps_decay success_thresh : ℚ) (i_episode : Nat)
    (ls : LoopState α σ) : LoopState α σ :=
  let r := env.reset ls.envSt
  let t := runSteps ag env ls.eps max_t ls.agent r.1 r.2 0
  let score := t.2.2
  let scores_window' := windowAppend ls.scores_window score
  let running_mean := npMean scores_window'
  let fire : Bool := !ls.success && decide (success_thresh ≤ running_mean)
  { agent := t.1, envSt := t.2.1,
    scores := ls.scores ++ [score],
    scores_window := scores_window',
    eps := max eps_end (eps_decay * ls.eps),
    success := ls.success || fire,
    solvedEp := if fire then some i_episode else ls.solvedEp,
    notifs := if fire then ls.notifs + 1 else ls.notifs }

/-- State of `train_agent` after the first `n` episodes: episode `k+1` is
obtained from the state after `k` episodes by `episodeBody` with
`i_episode = k+1` (the loop runs over `trange(1, n_episodes + 1)`). -/
def loopIter {α σ : Type} (ag : AgentM α) (env : Env σ) (max_t : Nat)
    (eps_end eps_decay success_thresh : ℚ) (a0 : α) (s0 : σ) (eps_start : ℚ) :
    Nat → LoopState α σ
  | 0 => initState a0 s0 eps_start
  | Nat.succ k =>
    episodeBody ag env max_t eps_end eps_decay success_thresh (k + 1)
      (loopIter ag env max_t eps_end eps_decay success_thresh a0 s0 eps_start k)

/-- The function `train_agent` (train.py:34-96): run `n_episodes` episodes and return the
full score history.  In the script the defaults are `n_episodes=2000`,
`max_t=1000`, `eps_start=1.0`, `eps_end=0.01`, `eps_decay=0.995`,
`success_thresh=13.`. -/
def train_agent {α σ : Type} (ag : AgentM α) (env : Env σ) (a0 : α) (s0 : σ)
    (n_episodes max_t : Nat) (eps_start eps_end eps_decay success_thresh : ℚ) :
    List ℚ :=
  (loopIter ag env max_t eps_end eps_decay success_thresh a0 s0 eps_start n_episodes).scores

/-- The last `n` elements of a list (suffix of length `min n xs.length`). -/
def lastN (n : Nat) (xs : List ℚ) : List ℚ := xs.drop (xs.length - n)

/-- The running mean the training loop sees at the end of episode `i`
(1-based): the `np.mean` of the last at most 100 of the first `i` scores. -/
def windowMeanAt (scores : List ℚ) (i : Nat) : ℚ := npMean (lastN 100 (scores.take i))

/-- First episode index in `1..n` at which the training loop's success test
`running_mean >= success_thresh` holds, as a recursion over `n`. -/
def firstCrossAux (thresh : ℚ) (scores : List ℚ) : Nat → Option Nat
  | 0 => none
  | Nat.succ i =>
    match firstCrossAux thresh scores i with
    | some j => some j
    | none => if thresh ≤ windowMeanAt scores (i + 1) then some (i + 1) else none

/-- First episode whose trailing window mean reaches the threshold, over the
whole score list. -/
def firstCross (thresh : ℚ) (scores : List ℚ) : Option Nat :=
  firstCrossAux thresh scores scores.length

/-- The running-average score `plot_scores` computes at index `idx`
(train.py:115): `np.mean(scores[max(0, idx - w + 1): idx + 1])`,
with the Python slice rendered as take-then-drop (truncated subtraction
realises the `max(0, ...)`). -/
def raAt (scores : List ℚ) (w : Nat) (idx : Nat) : ℚ :=
  npMean ((scores.take (idx + 1)).drop (idx + 1 - w))

/-- The `success_x, success_y` pair `plot_scores` ends up with after its
`for idx in range(len(scores))` loop (train.py:112-120): the first index whose
running average is strictly above the threshold, recorded as
`(idx + 1, ra_score)`; `none` models both variables still being `None`. -/
def plotSuccessAux (scores : List ℚ) (w : Nat) (thresh : ℚ) : Nat → Option (Nat × ℚ)
  | 0 => none
  | Nat.succ i =>
    match plotSuccessAux scores w thresh i with
    | some p => some p
    | none => if thresh < raAt scores w i then some (i + 1, raAt scores w i) else none

/-- Final `success_x, success_y` after scanning the whole score list. -/
def plotSuccessXY (scores : List ℚ) (w : Nat) (thresh : ℚ) : Option (Nat × ℚ) :=
  plotSuccessAux scores w thresh scores.length

/-- The guard `if success_x and success_y:` used both for the scatter marker
(train.py:123) and for the extra legend entry (train.py:130): Python
truthiness, so `None` is falsy and a number is falsy exactly when it is 0. -/
def showSuccessMark (scores : List ℚ) (w : Nat) (thresh : ℚ) : Bool :=
  match plotSuccessXY scores w thresh with
  | none => false
  | some p => decide (p.1 ≠ 0) && decide (p.2 ≠ 0)

/-- The legend list `plot_scores` passes to `plt.legend` (train.py:129-132). -/
def plotLegends (scores : List ℚ) (w : Nat) (thresh : ℚ) : List String :=
  if showSuccessMark scores w thresh then
    ["Raw score", "Running average score", "Running median score", "Success episode"]
  else
    ["Raw score", "Running average score", "Running median score"]

/-- The command-line options of the script that feed the training run,
with the argparse defaults (train.py:205-234). -/
structure Args where
  success_threshold : ℚ := 13
  episodes : Nat := 500
  eps_start : ℚ := 1
  eps_end : ℚ := 1 / 50
  eps_decay : ℚ := 49 / 50

/-- The `Args` record argparse produces when no option is given. -/
def defaultArgs : Args := {}

/-- The training-loop state produced by `main`'s call to `train_agent`
(train.py:176-180): `main` passes `n_episodes`, `eps_start`, `eps_end` and
`eps_decay` from the parsed arguments but does not pass `max_t` or
`success_thresh`, so those two keep `train_agent`'s defaults `1000` and
`13.` — in particular `args.success_threshold` is not forwarded. -/
def mainTrainState {α σ : Type} (args : Args) (ag : AgentM α) (env : Env σ)
    (a0 : α) (s0 : σ) : LoopState α σ :=
  loopIter ag env 1000 args.eps_end args.eps_decay 13 a0 s0 args.eps_start args.episodes

/-- The top-level statements of `main` (train.py:137-193), in program order:
construct the Unity environment, reset it and read the brain, construct the
agent, run `train_agent`, save the model parameters, call `env.close()`,
and finally plot and save the score figure. -/
inductive MainStage
  | envCtor
  | envReset
  | agentCtor
  | training
  | saveModel
  | envClose
  | plotting
deriving DecidableEq

/-- Execution position of each statement of `main`. -/
def stagePos : MainStage → Nat
  | MainStage.envCtor => 0
  | MainStage.envReset => 1
  | MainStage.agentCtor => 2
  | MainStage.training => 3
  | MainStage.saveModel => 4
  | MainStage.envClose => 5
  | MainStage.plotting => 6

/-- Whether `env.close()` runs during an execution of `main` in which the
statement at stage `f` raises a fatal error (`none` means no statement
raises).  `main` wraps nothing in `try`/`finally`, so a raised exception
propagates and every later statement is skipped: `close` runs exactly when
it is reached, i.e. when the failing statement comes after it. -/
def envClosedWhenFailAt (f : Option MainStage) : Bool :=
  match f with
  | none => true
  | some st => decide (stagePos MainStage.envClose < stagePos st)

/-- A trivial stateless agent collaborator, enough to drive the loop. -/
def stubAgent : AgentM Unit :=
  { act := fun _ _ _ => 0, step := fun _ _ _ _ _ _ => () }

/-- A stub environment with 4-dimensional observations that pays reward `r`
and returns `done = true` on every step. -/
def constEnv (r : ℚ) : Env Unit :=
  { reset := fun _ => ((), [0, 0, 0, 0]),
    step := fun _ _ => ((), [0, 0, 0, 0], r, true) }

/-- The spec's stub environment: reward 1 and `done = true` after one step. -/
def stubEnv1 : Env Unit := constEnv 1

/-- A stub environment paying reward 13 and terminating after one step. -/
def stubEnv13 : Env Unit := constEnv 13

/-- Arguments exercising the success-threshold option: the user supplies
`--success-threshold 1` and runs 5 episodes. -/
def argsC3 : Args := { success_threshold := 1, episodes := 5 }

/-- Five episodes of `train_agent` on the reward-1 stub environment with the
function's own defaults (`max_t=1000`, `eps_start=1.0`, `eps_end=0.01`,
`eps_decay=0.995`) and threshold `thresh`. -/
def stubRun (thresh : ℚ) : LoopState Unit Unit :=
  loopIter stubAgent stubEnv1 1000 (1 / 100) (199 / 200) thresh () () 1 5

/-- One episode of `train_agent` on the reward-13 stub environment with the
default threshold `13`. -/
def run13 : LoopState Unit Unit :=
  loopIter stubAgent stubEnv13 1000 (1 / 100) (199 / 200) 13 () () 1 1

/-- The run of one episode's inner loop from loop state `ls`:
final agent state, final environment state and episode score. -/
def epRun {α σ : Type} (ag : AgentM α) (env : Env σ) (max_t : Nat)
    (ls : LoopState α σ) : α × σ × ℚ :=
  runSteps ag env ls.eps max_t ls.agent (env.reset ls.envSt).1 (env.reset ls.envSt).2 0

/-- The score one episode accumulates when started from loop state `ls`. -/
def episodeScore {α σ : Type} (ag : AgentM α) (env : Env σ) (max_t : Nat)
    (ls : LoopState α σ) : ℚ :=
  (epRun ag env max_t ls).2.2

/-- The guard of the success branch
`if (not success) and running_mean >= success_thresh` (train.py:92). -/
def fireCond {α σ : Type} (ag : AgentM α) (env : Env σ) (max_t : Nat)
    (th : ℚ) (ls : LoopState α σ) : Bool :=
  !ls.success
    && decide (th ≤ npMean (windowAppend ls.scores_window (episodeScore ag env max_t ls)))

-- Projection lemmas for one episode step (all definitional).

theorem episodeBody_agent {α σ : Type} (ag : AgentM α) (env : Env σ)
    (max_t : Nat) (ee ed th : ℚ) (i : Nat) (ls : LoopState α σ) :
    (episodeBody ag env max_t ee ed th i ls).agent = (epRun ag env max_t ls).1 := rfl

theorem episodeBody_envSt {α σ : Type} (ag : AgentM α) (env : Env σ)
    (max_t : Nat) (ee ed th : ℚ) (i : Nat) (ls : LoopState α σ) :
    (episodeBody ag env max_t ee ed th i ls).envSt = (epRun ag env max_t ls).2.1 := rfl

theorem episodeBody_scores {α σ : Type} (ag : AgentM α) (env : Env σ)
    (max_t : Nat) (ee ed th : ℚ) (i : Nat) (ls : LoopState α σ) :
    (episodeBody ag env max_t ee ed th i ls).scores
      = ls.scores ++ [episodeScore ag env max_t ls] := rfl

theorem episodeBody_window {α σ : Type} (ag : AgentM α) (env : Env σ)
    (max_t : Nat) (ee ed th : ℚ) (i : Nat) (ls : LoopState α σ) :
    (episodeBody ag env max_t ee ed th i ls).scores_window
      = windowAppend ls.scores_window (episodeScore ag env max_t ls) := rfl

theorem episodeBody_eps {α σ : Type} (ag : AgentM α) (env : Env σ)
    (max_t : Nat) (ee ed th : ℚ) (i : Nat) (ls : LoopState α σ) :
    (episodeBody ag env max_t ee ed th i ls).eps = max ee (ed * ls.eps) := rfl

theorem episodeBody_success {α σ : Type} (ag : AgentM α) (env : Env σ)
    (max_t : Nat) (ee ed th : ℚ) (i : Nat) (ls : LoopState α σ) :
    (episodeBody ag env max_t ee ed th i ls).success
      = (ls.success || fireCond ag env max_t th ls) := rfl

theorem episodeBody_solvedEp {α σ : Type} (ag : AgentM α) (env : Env σ)
    (max_t : Nat) (ee ed th : ℚ) (i : Nat) (ls : LoopState α σ) :
    (episodeBody ag env max_t ee ed th i ls).solvedEp
      = if fireCond ag env max_t th ls then some i else ls.solvedEp := rfl

theorem episodeBody_notifs {α σ : Type} (ag : AgentM α) (env : Env σ)
    (max_t : Nat) (ee ed th : ℚ) (i : Nat) (ls : LoopState α σ) :
    (episodeBody ag env max_t ee ed th i ls).notifs
      = if fireCond ag env max_t th ls then ls.notifs + 1 else ls.notifs := rfl

theorem run_length {α σ : Type} (ag : AgentM α) (env : Env σ) (max_t : Nat)
    (ee ed th : ℚ) (a0 : α) (s0 : σ) (es : ℚ) :
    ∀ n, (loopIter ag env max_t ee ed th a0 s0 es n).scores.length = n := by
  intro n
  induction n with
  | zero => rfl
  | succ k ih => simp [loopIter, episodeBody_scores, ih]

-- The sliding-window invariant: `scores_window` is always the suffix of the
-- full score history holding its last (at most) 100 entries.

theorem lastN_length (n : Nat) (xs : List ℚ) : (lastN n xs).length = min n xs.length := by
  simp [lastN]
  omega

theorem windowAppend_lastN (sc : List ℚ) (s : ℚ) :
    windowAppend (lastN 100 sc) s = lastN 100 (sc ++ [s]) := by
  by_cases h : sc.length < 100
  · have h0 : sc.length - 100 = 0 := by omega
    have h1 : sc.length + 1 - 100 = 0 := by omega
    have hlen : (lastN 100 sc).length < 100 := by rw [lastN_length]; omega
    unfold windowAppend
    rw [if_pos hlen]
    unfold lastN
    simp [h0, h1]
  · have hlen : (lastN 100 sc).length = 100 := by rw [lastN_length]; omega
    have hd : sc.length + 1 - 100 ≤ sc.length := by omega
    unfold windowAppend
    rw [hlen, if_neg (by omega : ¬ (100 : Nat) < 100)]
    unfold lastN
    rw [List.length_append]
    simp only [List.length_cons, List.length_nil, Nat.zero_add]
    rw [List.drop_append_of_le_length hd, List.tail_drop]
    have : sc.length - 100 + 1 = sc.length + 1 - 100 := by omega
    rw [this]

theorem window_inv {α σ : Type} (ag : AgentM α) (env : Env σ) (max_t : Nat)
    (ee ed th : ℚ) (a0 : α) (s0 : σ) (es : ℚ) :
    ∀ n, (loopIter ag env max_t ee ed th a0 s0 es n).scores_window
      = lastN 100 (loopIter ag env max_t ee ed th a0 s0 es n).scores := by
  intro n
  induction n with
  | zero => rfl
  | succ k ih =>
    simp only [loopIter, episodeBody_window, episodeBody_scores, ih, windowAppend_lastN]

-- The one-shot success flag: `success` is set exactly when some episode has
-- been recorded in `solvedEp`, and exactly one notification is written iff so.

theorem status_inv {α σ : Type} (ag : AgentM α) (env : Env σ) (max_t : Nat)
    (ee ed th : ℚ) (a0 : α) (s0 : σ) (es : ℚ) :
    ∀ n, ((loopIter ag env max_t ee ed th a0 s0 es n).success
            = (loopIter ag env max_t ee ed th a0 s0 es n).solvedEp.isSome)
      ∧ ((loopIter ag env max_t ee ed th a0 s0 es n).notifs
            = if (loopIter ag env max_t ee ed th a0 s0 es n).success then 1 else 0) := by
  intro n
  induction n with
  | zero => exact ⟨rfl, rfl⟩
  | succ k ih =>
    obtain ⟨h1, h2⟩ := ih
    set ls := loopIter ag env max_t ee ed th a0 s0 es k with hls
    simp only [loopIter, episodeBody_success, episodeBody_solvedEp, episodeBody_notifs, ← hls]
    by_cases hf : fireCond ag env max_t th ls
    · have hsucc : ls.success = false := by
        have := hf
        unfold fireCond at this
        rcases Bool.and_eq_true _ _ |>.mp this with ⟨hnot, _⟩
        simpa using hnot
      simp [hf, hsucc, h2]
    · simp only [Bool.not_eq_true] at hf
      simp [hf, h1, h2]

theorem success_mono {α σ : Type} (ag : AgentM α) (env : Env σ) (max_t : Nat)
    (ee ed th : ℚ) (a0 : α) (s0 : σ) (es : ℚ) (n : Nat)
    (h : (loopIter ag env max_t ee ed th a0 s0 es n).success = true) :
    (loopIter ag env max_t ee ed th a0 s0 es (n + 1)).success = true := by
  simp only [loopIter, episodeBody_success, h, Bool.true_or]

-- Epsilon bounds invariant for the floor-clamped geometric decay.

theorem eps_bounds {α σ : Type} (ag : AgentM α) (env : Env σ) (max_t : Nat)
    (ee ed th : ℚ) (a0 : α) (s0 : σ) (es : ℚ)
    (h1 : 0 ≤ ee) (h2 : ee ≤ es) (h4 : ed ≤ 1) :
    ∀ n, ee ≤ (loopIter ag env max_t ee ed th a0 s0 es n).eps
      ∧ (loopIter ag env max_t ee ed th a0 s0 es n).eps ≤ es := by
  intro n
  induction n with
  | zero => exact ⟨h2, le_refl es⟩
  | succ k ih =>
    obtain ⟨hl, hu⟩ := ih
    constructor
    · simp only [loopIter, episodeBody_eps]
      exact le_max_left _ _
    · simp only [loopIter, episodeBody_eps]
      refine max_le h2 ?_
      calc ed * (loopIter ag env max_t ee ed th a0 s0 es k).eps
          ≤ (loopIter ag env max_t ee ed th a0 s0 es k).eps :=
            mul_le_of_le_one_left (le_trans h1 hl) h4
        _ ≤ es := hu

-- Stability of the crossing scan under extending the score list.

theorem windowMeanAt_append (sc : List ℚ) (x : ℚ) (j : Nat) (h : j ≤ sc.length) :
    windowMeanAt (sc ++ [x]) j = windowMeanAt sc j := by
  unfold windowMeanAt
  rw [List.take_append_of_le_length h]

theorem firstCrossAux_append (th : ℚ) (sc : List ℚ) (x : ℚ) :
    ∀ i, i ≤ sc.length → firstCrossAux th (sc ++ [x]) i = firstCrossAux th sc i := by
  intro i
  induction i with
  | zero => intro _; rfl
  | succ j ih =>
    intro hle
    have hj : j ≤ sc.length := by omega
    unfold firstCrossAux
    rw [ih hj, windowMeanAt_append sc x (j + 1) hle]

-- The loop's recorded success episode is the first window-mean crossing.

theorem solvedEp_eq_firstCrossAux {α σ : Type} (ag : AgentM α) (env : Env σ)
    (max_t : Nat) (ee ed th : ℚ) (a0 : α) (s0 : σ) (es : ℚ) :
    ∀ n, (loopIter ag env max_t ee ed th a0 s0 es n).solvedEp
      = firstCrossAux th (loopIter ag env max_t ee ed th a0 s0 es n).scores n := by
  intro n
  induction n with
  | zero => rfl
  | succ k ih =>
    set ls := loopIter ag env max_t ee ed th a0 s0 es k with hls
    have hlen : ls.scores.length = k := run_length ag env max_t ee ed th a0 s0 es k
    have hwin : ls.scores_window = lastN 100 ls.scores :=
      window_inv ag env max_t ee ed th a0 s0 es k
    have hscores : (loopIter ag env max_t ee ed th a0 s0 es (k + 1)).scores
        = ls.scores ++ [episodeScore ag env max_t ls] := by
      simp only [loopIter, episodeBody_scores, ← hls]
    have hmean : npMean (windowAppend ls.scores_window (episodeScore ag env max_t ls))
        = windowMeanAt (ls.scores ++ [episodeScore ag env max_t ls]) (k + 1) := by
      rw [hwin, windowAppend_lastN]
      unfold windowMeanAt
      congr 2
      rw [List.take_of_length_le]
      simp [hlen]
    have hsolved : (loopIter ag env max_t ee ed th a0 s0 es (k + 1)).solvedEp
        = if fireCond ag env max_t th ls then some (k + 1) else ls.solvedEp := by
      simp only [loopIter, episodeBody_solvedEp, ← hls]
    have hsucc : ls.success = ls.solvedEp.isSome :=
      (status_inv ag env max_t ee ed th a0 s0 es k).1
    have haux : firstCrossAux th (ls.scores ++ [episodeScore ag env max_t ls]) k
        = ls.solvedEp := by
      rw [firstCrossAux_append th ls.scores _ k (le_of_eq hlen.symm), ← ih]
    rw [hscores, hsolved]
    show (if fireCond ag env max_t th ls then some (k + 1) else ls.solvedEp)
      = firstCrossAux th (ls.scores ++ [episodeScore ag env max_t ls]) (k + 1)
    unfold firstCrossAux
    rw [haux]
    cases hcase : ls.solvedEp with
    | some j =>
      have : ls.success = true := by rw [hsucc, hcase]; rfl
      have hfire : fireCond ag env max_t th ls = false := by
        unfold fireCond
        rw [this]
        rfl
      rw [hfire]
      simp
    | none =>
      have hsf : ls.success = false := by rw [hsucc, hcase]; rfl
      have hfire : fireCond ag env max_t th ls
          = decide (th ≤ npMean (windowAppend ls.scores_window (episodeScore ag env max_t ls))) := by
        unfold fireCond
        rw [hsf]
        simp
      rw [hfire, hmean]
      by_cases hc : th ≤ windowMeanAt (ls.scores ++ [episodeScore ag env max_t ls]) (k + 1)
      · simp [hc]
      · simp [hc]

theorem solvedEp_eq_firstCross {α σ : Type} (ag : AgentM α) (env : Env σ)
    (max_t : Nat) (ee ed th : ℚ) (a0 : α) (s0 : σ) (es : ℚ) (n : Nat) :
    (loopIter ag env max_t ee ed th a0 s0 es n).solvedEp
      = firstCross th (loopIter ag env max_t ee ed th a0 s0 es n).scores := by
  unfold firstCross
  rw [run_length ag env max_t ee ed th a0 s0 es n]
  exact solvedEp_eq_firstCrossAux ag env max_t ee ed th a0 s0 es n

-- The success threshold influences only the success bookkeeping: the scores,
-- window, epsilon and collaborator states of the run are identical for any
-- two thresholds.

theorem epRun_congr {α σ : Type} (ag : AgentM α) (env : Env σ) (max_t : Nat)
    (ls ls' : LoopState α σ) (h1 : ls.agent = ls'.agent) (h2 : ls.envSt = ls'.envSt)
    (h3 : ls.eps = ls'.eps) : epRun ag env max_t ls = epRun ag env max_t ls' := by
  unfold epRun
  rw [h1, h2, h3]

theorem core_thresh_indep {α σ : Type} (ag : AgentM α) (env : Env σ) (max_t : Nat)
    (ee ed th th' : ℚ) (a0 : α) (s0 : σ) (es : ℚ) :
    ∀ n, ((loopIter ag env max_t ee ed th a0 s0 es n).agent
            = (loopIter ag env max_t ee ed th' a0 s0 es n).agent)
      ∧ ((loopIter ag env max_t ee ed th a0 s0 es n).envSt
            = (loopIter ag env max_t ee ed th' a0 s0 es n).envSt)
      ∧ ((loopIter ag env max_t ee ed th a0 s0 es n).eps
            = (loopIter ag env max_t ee ed th' a0 s0 es n).eps)
      ∧ ((loopIter ag env max_t ee ed th a0 s0 es n).scores
            = (loopIter ag env max_t ee ed th' a0 s0 es n).scores)
      ∧ ((loopIter ag env max_t ee ed th a0 s0 es n).scores_window
            = (loopIter ag env max_t ee ed th' a0 s0 es n).scores_window) := by
  intro n
  induction n with
  | zero => exact ⟨rfl, rfl, rfl, rfl, rfl⟩
  | succ k ih =>
    obtain ⟨h1, h2, h3, h4, h5⟩ := ih
    have hrun : epRun ag env max_t (loopIter ag env max_t ee ed th a0 s0 es k)
        = epRun ag env max_t (loopIter ag env max_t ee ed th' a0 s0 es k) :=
      epRun_congr ag env max_t _ _ h1 h2 h3
    have hscore : episodeScore ag env max_t (loopIter ag env max_t ee ed th a0 s0 es k)
        = episodeScore ag env max_t (loopIter ag env max_t ee ed th' a0 s0 es k) := by
      unfold episodeScore
      rw [hrun]
    refine ⟨?_, ?_, ?_, ?_, ?_⟩
    · simp only [loopIter, episodeBody_agent, hrun]
    · simp only [loopIter, episodeBody_envSt, hrun]
    · simp only [loopIter, episodeBody_eps, h3]
    · simp only [loopIter, episodeBody_scores, h4, hscore]
    · simp only [loopIter, episodeBody_window, h5, hscore]

-- The plotting scan agrees with the training-loop scan wherever no window
-- mean ties the threshold exactly (the two comparisons differ: the loop
-- tests `>=`, the plot tests `>`).

theorem raAt_eq_windowMeanAt (scores : List ℚ) (i : Nat) (h : i < scores.length) :
    raAt scores 100 i = windowMeanAt scores (i + 1) := by
  unfold raAt windowMeanAt lastN
  congr 2
  rw [List.length_take]
  omega

theorem plotAux_eq_crossAux (scores : List ℚ) (thresh : ℚ) :
    ∀ n, n ≤ scores.length → (∀ i, i < n → windowMeanAt scores (i + 1) ≠ thresh) →
      (plotSuccessAux scores 100 thresh n).map Prod.fst = firstCrossAux thresh scores n := by
  intro n
  induction n with
  | zero => intro _ _; rfl
  | succ m ih =>
    intro hle hne
    have hm : m ≤ scores.length := by omega
    have hne' : ∀ i, i < m → windowMeanAt scores (i + 1) ≠ thresh := by
      intro i hi
      exact hne i (by omega)
    have heq := ih hm hne'
    unfold plotSuccessAux firstCrossAux
    cases hcase : firstCrossAux thresh scores m with
    | some j =>
      rw [hcase] at heq
      cases hp : plotSuccessAux scores 100 thresh m with
      | none => rw [hp] at heq; simp at heq
      | some p =>
        rw [hp] at heq
        simp at heq
        simp [heq]
    | none =>
      rw [hcase] at heq
      cases hp : plotSuccessAux scores 100 thresh m with
      | some p => rw [hp] at heq; simp at heq
      | none =>
        have hra : raAt scores 100 m = windowMeanAt scores (m + 1) :=
          raAt_eq_windowMeanAt scores m (by omega)
        have hnem : windowMeanAt scores (m + 1) ≠ thresh := hne m (by omega)
        by_cases hc : thresh ≤ windowMeanAt scores (m + 1)
        · have hlt : thresh < raAt scores 100 m := by
            rw [hra]
            exact lt_of_le_of_ne hc (Ne.symm hnem)
          rw [if_pos hlt, if_pos hc]
          rfl
        · have hlt : ¬ thresh < raAt scores 100 m := by
            rw [hra]
            exact fun hlt => hc (le_of_lt hlt)
          rw [if_neg hlt, if_neg hc]
          rfl


-- Evaluation lemmas for runs on the constant-reward stub environment.

theorem runSteps_const (r : ℚ) (t : Nat) (eps : ℚ) (a s : Unit) (st : StateV) (sc : ℚ) :
    runSteps stubAgent (constEnv r) eps (t + 1) a s st sc = ((), (), sc + r) := by
  simp [runSteps, stubAgent, constEnv]

theorem episodeScore_const (r : ℚ) (ls : LoopState Unit Unit) :
    episodeScore stubAgent (constEnv r) 1000 ls = r := by
  have h : (1000 : Nat) = 999 + 1 := rfl
  unfold episodeScore epRun
  rw [h, runSteps_const]
  simp

theorem const_scores (r ee ed th : ℚ) :
    ∀ k, (loopIter stubAgent (constEnv r) 1000 ee ed th () () 1 k).scores
      = List.replicate k r := by
  intro k
  induction k with
  | zero => rfl
  | succ m ih =>
    simp only [loopIter, episodeBody_scores, ih, episodeScore_const]
    rw [← List.replicate_succ']

theorem const_window (r ee ed th : ℚ) (k : Nat) (hk : k ≤ 100) :
    (loopIter stubAgent (constEnv r) 1000 ee ed th () () 1 k).scores_window
      = List.replicate k r := by
  rw [window_inv, const_scores]
  unfold lastN
  rw [List.length_replicate, Nat.sub_eq_zero_of_le hk, List.drop_zero]

theorem npMean_replicate (k : Nat) (r : ℚ) (hk : k ≠ 0) :
    npMean (List.replicate k r) = r := by
  unfold npMean
  rw [List.sum_replicate, List.length_replicate, nsmul_eq_mul]
  exact mul_div_cancel_left₀ r (Nat.cast_ne_zero.mpr hk)

theorem const_solvedEp (r ee ed th : ℚ) :
    ∀ k, k ≤ 100 → (loopIter stubAgent (constEnv r) 1000 ee ed th () () 1 k).solvedEp
      = if th ≤ r ∧ 0 < k then some 1 else none := by
  intro k
  induction k with
  | zero =>
    intro _
    show (none : Option Nat) = if th ≤ r ∧ 0 < 0 then some 1 else none
    simp
  | succ m ih =>
    intro hle
    have hm : m ≤ 100 := by omega
    have hwin : (loopIter stubAgent (constEnv r) 1000 ee ed th () () 1 (m + 1)).scores_window
        = List.replicate (m + 1) r := const_window r ee ed th (m + 1) hle
    have hw : (loopIter stubAgent (constEnv r) 1000 ee ed th () () 1 (m + 1)).scores_window
        = windowAppend (loopIter stubAgent (constEnv r) 1000 ee ed th () () 1 m).scores_window
            (episodeScore stubAgent (constEnv r) 1000
              (loopIter stubAgent (constEnv r) 1000 ee ed th () () 1 m)) := by
      simp only [loopIter, episodeBody_window]
    have hwm : npMean (windowAppend
          (loopIter stubAgent (constEnv r) 1000 ee ed th () () 1 m).scores_window
          (episodeScore stubAgent (constEnv r) 1000
            (loopIter stubAgent (constEnv r) 1000 ee ed th () () 1 m))) = r := by
      rw [← hw, hwin]
      exact npMean_replicate (m + 1) r (Nat.succ_ne_zero m)
    have hfc : fireCond stubAgent (constEnv r) 1000 th
          (loopIter stubAgent (constEnv r) 1000 ee ed th () () 1 m)
        = (!(loopIter stubAgent (constEnv r) 1000 ee ed th () () 1 m).success
            && decide (th ≤ r)) := by
      unfold fireCond
      rw [hwm]
    have hsucc : (loopIter stubAgent (constEnv r) 1000 ee ed th () () 1 m).success
        = (loopIter stubAgent (constEnv r) 1000 ee ed th () () 1 m).solvedEp.isSome :=
      (status_inv stubAgent (constEnv r) 1000 ee ed th () () 1 m).1
    have hstep : (loopIter stubAgent (constEnv r) 1000 ee ed th () () 1 (m + 1)).solvedEp
        = if fireCond stubAgent (constEnv r) 1000 th
              (loopIter stubAgent (constEnv r) 1000 ee ed th () () 1 m)
          then some (m + 1)
          else (loopIter stubAgent (constEnv r) 1000 ee ed th () () 1 m).solvedEp := by
      simp only [loopIter, episodeBody_solvedEp]
    rw [hstep, hfc, hsucc, ih hm]
    by_cases hth : th ≤ r
    · cases m with
      | zero => simp [hth]
      | succ j => simp [hth]
    · simp [hth]

theorem const_success (r ee ed th : ℚ) (k : Nat) (hk : k ≤ 100) :
    (loopIter stubAgent (constEnv r) 1000 ee ed th () () 1 k).success
      = decide (th ≤ r ∧ 0 < k) := by
  rw [(status_inv stubAgent (constEnv r) 1000 ee ed th () () 1 k).1,
    const_solvedEp r ee ed th k hk]
  by_cases h : th ≤ r ∧ 0 < k
  · simp [h]
  · simp [h]

/-- C1: in `train_agent`, the end-of-episode update is
`epsilon ← max(eps_end, eps_decay * epsilon)`, applied exactly once per
episode, and (for a nonnegative floor below the start and a decay factor
between 0 and 1) after every update `eps_end ≤ epsilon ≤ eps_start` holds
and epsilon never increases from one episode to the next. -/
theorem C1_epsilon_schedule {α σ : Type} (ag : AgentM α) (env : Env σ) (max_t : Nat)
    (ee ed th : ℚ) (a0 : α) (s0 : σ) (es : ℚ) (k : Nat)
    (h1 : 0 ≤ ee) (h2 : ee ≤ es) (_h3 : 0 ≤ ed) (h4 : ed ≤ 1) :
    ((loopIter ag env max_t ee ed th a0 s0 es (k + 1)).eps
        = max ee (ed * (loopIter ag env max_t ee ed th a0 s0 es k).eps))
      ∧ ee ≤ (loopIter ag env max_t ee ed th a0 s0 es (k + 1)).eps
      ∧ (loopIter ag env max_t ee ed th a0 s0 es (k + 1)).eps ≤ es
      ∧ (loopIter ag env max_t ee ed th a0 s0 es (k + 1)).eps
          ≤ (loopIter ag env max_t ee ed th a0 s0 es k).eps := by
  have hb := eps_bounds ag env max_t ee ed th a0 s0 es h1 h2 h4
  refine ⟨?_, (hb (k + 1)).1, (hb (k + 1)).2, ?_⟩
  · simp only [loopIter, episodeBody_eps]
  · simp only [loopIter, episodeBody_eps]
    refine max_le (hb k).1 ?_
    exact mul_le_of_le_one_left (le_trans h1 (hb k).1) h4

/-- Witness for C1 at a concrete run: the reward-1 stub environment with
`eps_start = 1`, `eps_end = eps_decay = 1/2`, first episode. -/
theorem C1_epsilon_schedule_witness :
    ((loopIter stubAgent stubEnv1 1000 (1 / 2) (1 / 2) 13 () () 1 1).eps
        = max (1 / 2) ((1 / 2) * (loopIter stubAgent stubEnv1 1000 (1 / 2) (1 / 2) 13 () () 1 0).eps))
      ∧ (1 / 2 : ℚ) ≤ (loopIter stubAgent stubEnv1 1000 (1 / 2) (1 / 2) 13 () () 1 1).eps
      ∧ (loopIter stubAgent stubEnv1 1000 (1 / 2) (1 / 2) 13 () () 1 1).eps ≤ 1
      ∧ (loopIter stubAgent stubEnv1 1000 (1 / 2) (1 / 2) 13 () () 1 1).eps
          ≤ (loopIter stubAgent stubEnv1 1000 (1 / 2) (1 / 2) 13 () () 1 0).eps :=
  C1_epsilon_schedule stubAgent stubEnv1 1000 (1 / 2) (1 / 2) 13 () () 1 0
    (by norm_num) (by norm_num) (by norm_num) (by norm_num)

/-- C2: the solved flag starts false; at the end of any episode where it is
still false and the window mean reaches the threshold it becomes true, the
episode is recorded and exactly one success notification is written; once
true it never resets and no further notifications appear (the total count
is 1 when solved and 0 otherwise), regardless of later window means. -/
theorem C2_solved_flag {α σ : Type} (ag : AgentM α) (env : Env σ) (max_t : Nat)
    (ee ed th : ℚ) (a0 : α) (s0 : σ) (es : ℚ) :
    ((loopIter ag env max_t ee ed th a0 s0 es 0).success = false)
    ∧ (∀ k, (loopIter ag env max_t ee ed th a0 s0 es k).success = false →
        th ≤ npMean (loopIter ag env max_t ee ed th a0 s0 es (k + 1)).scores_window →
        (loopIter ag env max_t ee ed th a0 s0 es (k + 1)).success = true
          ∧ (loopIter ag env max_t ee ed th a0 s0 es (k + 1)).notifs
              = (loopIter ag env max_t ee ed th a0 s0 es k).notifs + 1
          ∧ (loopIter ag env max_t ee ed th a0 s0 es (k + 1)).solvedEp = some (k + 1))
    ∧ (∀ k, (loopIter ag env max_t ee ed th a0 s0 es k).success = true →
        (loopIter ag env max_t ee ed th a0 s0 es (k + 1)).success = true
          ∧ (loopIter ag env max_t ee ed th a0 s0 es (k + 1)).notifs
              = (loopIter ag env max_t ee ed th a0 s0 es k).notifs
          ∧ (loopIter ag env max_t ee ed th a0 s0 es (k + 1)).solvedEp
              = (loopIter ag env max_t ee ed th a0 s0 es k).solvedEp)
    ∧ (∀ k, (loopIter ag env max_t ee ed th a0 s0 es k).notifs
        = if (loopIter ag env max_t ee ed th a0 s0 es k).success then 1 else 0) := by
  refine ⟨rfl, ?_, ?_, fun k => (status_inv ag env max_t ee ed th a0 s0 es k).2⟩
  · intro k hs hm
    set ls := loopIter ag env max_t ee ed th a0 s0 es k with hls
    have hwin : (loopIter ag env max_t ee ed th a0 s0 es (k + 1)).scores_window
        = windowAppend ls.scores_window (episodeScore ag env max_t ls) := by
      simp only [loopIter, episodeBody_window, ← hls]
    rw [hwin] at hm
    have hfire : fireCond ag env max_t th ls = true := by
      unfold fireCond
      rw [hs]
      simpa using hm
    refine ⟨?_, ?_, ?_⟩
    · simp only [loopIter, episodeBody_success, ← hls, hfire, Bool.or_true]
    · simp only [loopIter, episodeBody_notifs, ← hls, hfire, if_true]
    · simp only [loopIter, episodeBody_solvedEp, ← hls, hfire, if_true]
  · intro k hs
    set ls := loopIter ag env max_t ee ed th a0 s0 es k with hls
    have hfire : fireCond ag env max_t th ls = false := by
      unfold fireCond
      rw [hs]
      rfl
    refine ⟨?_, ?_, ?_⟩
    · simp only [loopIter, episodeBody_success, ← hls, hs, Bool.true_or]
    · simp only [loopIter, episodeBody_notifs, ← hls, hfire, Bool.false_eq_true,
        if_false]
    · simp only [loopIter, episodeBody_solvedEp, ← hls, hfire, Bool.false_eq_true,
        if_false]

/-- Witness for C2: on the reward-1 stub environment with threshold 1 the
flag starts false, fires at episode 1 with one notification, and episode 2
keeps flag, notification count and recorded episode unchanged. -/
theorem C2_solved_flag_witness :
    ((loopIter stubAgent stubEnv1 1000 (1 / 100) (199 / 200) 1 () () 1 0).success = false)
    ∧ ((loopIter stubAgent stubEnv1 1000 (1 / 100) (199 / 200) 1 () () 1 1).success = true
        ∧ (loopIter stubAgent stubEnv1 1000 (1 / 100) (199 / 200) 1 () () 1 1).notifs
            = (loopIter stubAgent stubEnv1 1000 (1 / 100) (199 / 200) 1 () () 1 0).notifs + 1
        ∧ (loopIter stubAgent stubEnv1 1000 (1 / 100) (199 / 200) 1 () () 1 1).solvedEp = some 1)
    ∧ ((loopIter stubAgent stubEnv1 1000 (1 / 100) (199 / 200) 1 () () 1 2).success = true
        ∧ (loopIter stubAgent stubEnv1 1000 (1 / 100) (199 / 200) 1 () () 1 2).notifs
            = (loopIter stubAgent stubEnv1 1000 (1 / 100) (199 / 200) 1 () () 1 1).notifs
        ∧ (loopIter stubAgent stubEnv1 1000 (1 / 100) (199 / 200) 1 () () 1 2).solvedEp
            = (loopIter stubAgent stubEnv1 1000 (1 / 100) (199 / 200) 1 () () 1 1).solvedEp) := by
  have T := C2_solved_flag stubAgent stubEnv1 1000 (1 / 100) (199 / 200) 1 () () 1
  have hm : (1 : ℚ) ≤ npMean
      (loopIter stubAgent stubEnv1 1000 (1 / 100) (199 / 200) 1 () () 1 1).scores_window := by
    show (1 : ℚ) ≤ npMean
      (loopIter stubAgent (constEnv 1) 1000 (1 / 100) (199 / 200) 1 () () 1 1).scores_window
    rw [const_window 1 (1 / 100) (199 / 200) 1 1 (by norm_num),
      npMean_replicate 1 1 one_ne_zero]
  have h1 := T.2.1 0 rfl hm
  have h2 := T.2.2.1 1 h1.1
  exact ⟨T.1, h1, h2⟩

/-- C3 (code-bug evidence): `--success-threshold` is a recognized option
with default 13, but `main` does not forward it to `train_agent`, which
therefore always compares against its own default 13: with the option set
to 1 on the reward-1 stub run, the final window mean reaches the configured
threshold yet no solved notification is emitted and no success episode is
recorded, whereas the very same loop run with the configured threshold
records success at episode 1. -/
theorem C3_threshold_not_forwarded :
    defaultArgs.success_threshold = 13
    ∧ argsC3.success_threshold = 1
    ∧ argsC3.success_threshold
        ≤ npMean (mainTrainState argsC3 stubAgent stubEnv1 () ()).scores_window
    ∧ (mainTrainState argsC3 stubAgent stubEnv1 () ()).notifs = 0
    ∧ (mainTrainState argsC3 stubAgent stubEnv1 () ()).solvedEp = none
    ∧ (loopIter stubAgent stubEnv1 1000 argsC3.eps_end argsC3.eps_decay
        argsC3.success_threshold () () argsC3.eps_start argsC3.episodes).solvedEp
          = some 1 := by
  have hsol : (mainTrainState argsC3 stubAgent stubEnv1 () ()).solvedEp = none := by
    show (loopIter stubAgent (constEnv 1) 1000 (1 / 50) (49 / 50) 13 () () 1 5).solvedEp = none
    rw [const_solvedEp 1 (1 / 50) (49 / 50) 13 5 (by norm_num)]
    norm_num
  have hsol2 : (loopIter stubAgent stubEnv1 1000 argsC3.eps_end argsC3.eps_decay 13
      () () argsC3.eps_start argsC3.episodes).solvedEp = none := hsol
  have hsucc : (mainTrainState argsC3 stubAgent stubEnv1 () ()).success = false := by
    show (loopIter stubAgent stubEnv1 1000 argsC3.eps_end argsC3.eps_decay 13
      () () argsC3.eps_start argsC3.episodes).success = false
    rw [(status_inv stubAgent stubEnv1 1000 argsC3.eps_end argsC3.eps_decay 13
      () () argsC3.eps_start argsC3.episodes).1, hsol2]
    rfl
  refine ⟨rfl, rfl, ?_, ?_, hsol, ?_⟩
  · show (1 : ℚ) ≤ npMean (mainTrainState argsC3 stubAgent stubEnv1 () ()).scores_window
    show (1 : ℚ) ≤ npMean
      (loopIter stubAgent (constEnv 1) 1000 (1 / 50) (49 / 50) 13 () () 1 5).scores_window
    rw [const_window 1 (1 / 50) (49 / 50) 13 5 (by norm_num),
      npMean_replicate 5 1 (by norm_num)]
  · have hsucc2 : (loopIter stubAgent stubEnv1 1000 argsC3.eps_end argsC3.eps_decay 13
        () () argsC3.eps_start argsC3.episodes).success = false := hsucc
    show (loopIter stubAgent stubEnv1 1000 argsC3.eps_end argsC3.eps_decay 13
      () () argsC3.eps_start argsC3.episodes).notifs = 0
    rw [(status_inv stubAgent stubEnv1 1000 argsC3.eps_end argsC3.eps_decay 13
      () () argsC3.eps_start argsC3.episodes).2, hsucc2]
    rfl
  · show (loopIter stubAgent (constEnv 1) 1000 (1 / 50) (49 / 50) 1 () () 1 5).solvedEp = some 1
    rw [const_solvedEp 1 (1 / 50) (49 / 50) 1 5 (by norm_num)]
    norm_num

/-- C4: `train_agent` runs exactly `n_episodes` episodes and returns one
score per episode (a history of length `n_episodes`), and the returned
history does not depend on the success threshold at all — in particular
setting the solved flag never shortens the run. -/
theorem C4_full_run {α σ : Type} (ag : AgentM α) (env : Env σ) (a0 : α) (s0 : σ)
    (n max_t : Nat) (es ee ed th th' : ℚ) :
    (train_agent ag env a0 s0 n max_t es ee ed th).length = n
    ∧ train_agent ag env a0 s0 n max_t es ee ed th
        = train_agent ag env a0 s0 n max_t es ee ed th' := by
  constructor
  · exact run_length ag env max_t ee ed th a0 s0 es n
  · exact (core_thresh_indep ag env max_t ee ed th th' a0 s0 es n).2.2.2.1

/-- C5: the sliding window never holds more than 100 entries, and it is
always exactly the suffix of the full score history formed by the most
recent at most 100 scores — so when a full window receives a new score the
oldest entry is the one dropped. -/
theorem C5_window_bound {α σ : Type} (ag : AgentM α) (env : Env σ) (max_t : Nat)
    (ee ed th : ℚ) (a0 : α) (s0 : σ) (es : ℚ) (k : Nat) :
    (loopIter ag env max_t ee ed th a0 s0 es k).scores_window.length ≤ 100
    ∧ (loopIter ag env max_t ee ed th a0 s0 es k).scores_window
        = lastN 100 (loopIter ag env max_t ee ed th a0 s0 es k).scores := by
  have hw := window_inv ag env max_t ee ed th a0 s0 es k
  refine ⟨?_, hw⟩
  rw [hw, lastN_length]
  exact Nat.min_le_left _ _

/-- C6: on the 3-action, 4-dimensional stub environment that pays reward 1
and terminates every episode after one step, five episodes of `train_agent`
return the score list `[1, 1, 1, 1, 1]` (no crash: the run is a total
function), and a solved notification is emitted — equivalently, a success
episode is recorded — exactly when the success threshold is at most 1. -/
theorem C6_stub_five_episodes (thresh : ℚ) :
    (stubRun thresh).scores = [1, 1, 1, 1, 1]
    ∧ ((stubRun thresh).solvedEp = some 1 ↔ thresh ≤ 1)
    ∧ ((stubRun thresh).notifs = 1 ↔ thresh ≤ 1)
    ∧ ((stubRun thresh).notifs = 0 ↔ ¬ thresh ≤ 1) := by
  have hsol : (stubRun thresh).solvedEp = if thresh ≤ 1 ∧ 0 < 5 then some 1 else none := by
    show (loopIter stubAgent (constEnv 1) 1000 (1 / 100) (199 / 200) thresh () () 1 5).solvedEp
      = if thresh ≤ 1 ∧ 0 < 5 then some 1 else none
    exact const_solvedEp 1 (1 / 100) (199 / 200) thresh 5 (by norm_num)
  have hsucc : (stubRun thresh).success = (stubRun thresh).solvedEp.isSome :=
    (status_inv stubAgent stubEnv1 1000 (1 / 100) (199 / 200) thresh () () 1 5).1
  have hnot : (stubRun thresh).notifs = if (stubRun thresh).success then 1 else 0 :=
    (status_inv stubAgent stubEnv1 1000 (1 / 100) (199 / 200) thresh () () 1 5).2
  refine ⟨?_, ?_, ?_, ?_⟩
  · show (loopIter stubAgent (constEnv 1) 1000 (1 / 100) (199 / 200) thresh () () 1 5).scores
      = [1, 1, 1, 1, 1]
    rw [const_scores 1 (1 / 100) (199 / 200) thresh 5]
    rfl
  · rw [hsol]
    by_cases h : thresh ≤ 1
    · simp [h]
    · simp [h]
  · rw [hnot, hsucc, hsol]
    by_cases h : thresh ≤ 1
    · simp [h]
    · simp [h]
  · rw [hnot, hsucc, hsol]
    by_cases h : thresh ≤ 1
    · simp [h]
    · simp [h]

/-- Counterexample for C7: the plot's success test is strict (`>`), the
training loop's is not (`>=`), so on a one-episode run whose only score is
exactly the threshold 13 the loop records success at episode 1 while the
plot marks no episode at all. -/
theorem C7_counterexample :
    run13.solvedEp = some 1
    ∧ run13.scores = [13]
    ∧ plotSuccessXY run13.scores 100 13 = none := by
  have hsol : run13.solvedEp = some 1 := by
    show (loopIter stubAgent (constEnv 13) 1000 (1 / 100) (199 / 200) 13 () () 1 1).solvedEp
      = some 1
    rw [const_solvedEp 13 (1 / 100) (199 / 200) 13 1 (by norm_num)]
    norm_num
  have hsc : run13.scores = [13] := by
    show (loopIter stubAgent (constEnv 13) 1000 (1 / 100) (199 / 200) 13 () () 1 1).scores
      = [13]
    rw [const_scores 13 (1 / 100) (199 / 200) 13 1]
    rfl
  refine ⟨hsol, hsc, ?_⟩
  rw [hsc]
  have hra : raAt [13] 100 0 = 13 := by
    unfold raAt npMean
    norm_num
  show plotSuccessAux [13] 100 13 1 = none
  unfold plotSuccessAux
  rw [hra]
  norm_num
  rfl

/-- C7 (amended): for the same score sequence and threshold, the plot marks
the first episode whose trailing-100-window running average is strictly
above the threshold, while the training loop records the first episode
whose window mean is greater than or equal to it; whenever no window mean
ties the threshold exactly, the plot's marked episode coincides with the
episode at which the training loop declared success. -/
theorem C7_plot_matches_training {α σ : Type} (ag : AgentM α) (env : Env σ)
    (max_t : Nat) (ee ed th : ℚ) (a0 : α) (s0 : σ) (es : ℚ) (n : Nat)
    (h : ∀ i, i < n →
      windowMeanAt (loopIter ag env max_t ee ed th a0 s0 es n).scores (i + 1) ≠ th) :
    (plotSuccessXY (loopIter ag env max_t ee ed th a0 s0 es n).scores 100 th).map Prod.fst
      = (loopIter ag env max_t ee ed th a0 s0 es n).solvedEp := by
  have hlen : (loopIter ag env max_t ee ed th a0 s0 es n).scores.length = n :=
    run_length ag env max_t ee ed th a0 s0 es n
  unfold plotSuccessXY
  rw [hlen]
  rw [plotAux_eq_crossAux (loopIter ag env max_t ee ed th a0 s0 es n).scores th n
    (le_of_eq hlen.symm) h]
  exact (solvedEp_eq_firstCrossAux ag env max_t ee ed th a0 s0 es n).symm

/-- Witness for C7's amended statement: one episode of the reward-13 stub
with threshold 12 — no window mean ties 12, and both sides name episode 1. -/
theorem C7_plot_matches_training_witness :
    (∀ i, i < 1 →
      windowMeanAt (loopIter stubAgent stubEnv13 1000 (1 / 100) (199 / 200) 12
        () () 1 1).scores (i + 1) ≠ 12)
    ∧ (plotSuccessXY (loopIter stubAgent stubEnv13 1000 (1 / 100) (199 / 200) 12
        () () 1 1).scores 100 12).map Prod.fst
      = (loopIter stubAgent stubEnv13 1000 (1 / 100) (199 / 200) 12 () () 1 1).solvedEp := by
  have hsc : (loopIter stubAgent stubEnv13 1000 (1 / 100) (199 / 200) 12 () () 1 1).scores
      = [13] := by
    show (loopIter stubAgent (constEnv 13) 1000 (1 / 100) (199 / 200) 12 () () 1 1).scores
      = [13]
    rw [const_scores 13 (1 / 100) (199 / 200) 12 1]
    rfl
  have h : ∀ i, i < 1 →
      windowMeanAt (loopIter stubAgent stubEnv13 1000 (1 / 100) (199 / 200) 12
        () () 1 1).scores (i + 1) ≠ 12 := by
    intro i hi
    have hi0 : i = 0 := by omega
    subst hi0
    rw [hsc]
    unfold windowMeanAt lastN npMean
    norm_num
  exact ⟨h, C7_plot_matches_training stubAgent stubEnv13 1000 (1 / 100) (199 / 200) 12
    () () 1 1 h⟩

/-- Counterexample for C8: `main` has no `try`/`finally` around the training
run, so when `train_agent` raises a fatal error the `env.close()` statement,
which only comes later in the program text, never executes. -/
theorem C8_close_counterexample :
    envClosedWhenFailAt (some MainStage.training) = false := rfl

/-- C8 (amended): `env.close()` runs exactly on the executions of `main`
that reach it — the normal path and the path where only the final plotting
statement (which comes after `close`) fails; a fatal error in any earlier
statement, in particular in `train_agent`, leaks the environment. -/
theorem C8_close_exact_paths (f : Option MainStage) :
    envClosedWhenFailAt f = true ↔ (f = none ∨ f = some MainStage.plotting) := by
  cases f with
  | none => simp [envClosedWhenFailAt]
  | some st => cases st <;> simp [envClosedWhenFailAt, stagePos]

/-- C9: the success check divides by the window's actual length, so success
can be declared before 100 episodes exist: after episode 1 the window is the
single first-episode score, its `np.mean` is that score itself, and if that
score already reaches the threshold the flag is set at episode 1. -/
theorem C9_early_success {α σ : Type} (ag : AgentM α) (env : Env σ) (max_t : Nat)
    (ee ed th : ℚ) (a0 : α) (s0 : σ) (es : ℚ) :
    ((loopIter ag env max_t ee ed th a0 s0 es 1).scores_window
        = [episodeScore ag env max_t (initState a0 s0 es)])
    ∧ (npMean [episodeScore ag env max_t (initState a0 s0 es)]
        = episodeScore ag env max_t (initState a0 s0 es))
    ∧ (th ≤ episodeScore ag env max_t (initState a0 s0 es) →
        (loopIter ag env max_t ee ed th a0 s0 es 1).success = true
          ∧ (loopIter ag env max_t ee ed th a0 s0 es 1).solvedEp = some 1) := by
  have hmean : npMean [episodeScore ag env max_t (initState a0 s0 es)]
      = episodeScore ag env max_t (initState a0 s0 es) := by
    simp [npMean]
  refine ⟨rfl, hmean, ?_⟩
  intro hth
  have hw : windowAppend (initState a0 s0 es (α := α) (σ := σ)).scores_window
      (episodeScore ag env max_t (initState a0 s0 es))
      = [episodeScore ag env max_t (initState a0 s0 es)] := rfl
  have hfire : fireCond ag env max_t th (initState a0 s0 es) = true := by
    unfold fireCond
    rw [hw, hmean]
    show decide (th ≤ episodeScore ag env max_t (initState a0 s0 es)) = true
    exact decide_eq_true hth
  constructor
  · show (episodeBody ag env max_t ee ed th 1 (initState a0 s0 es)).success = true
    rw [episodeBody_success, hfire]
    rfl
  · show (episodeBody ag env max_t ee ed th 1 (initState a0 s0 es)).solvedEp = some 1
    rw [episodeBody_solvedEp, hfire]
    simp

/-- Witness for C9: on the reward-1 stub with threshold 1 the first episode
score is 1 and the run is solved at episode 1. -/
theorem C9_early_success_witness :
    (1 : ℚ) ≤ episodeScore stubAgent stubEnv1 1000 (initState () () 1)
    ∧ (loopIter stubAgent stubEnv1 1000 (1 / 100) (199 / 200) 1 () () 1 1).success = true
    ∧ (loopIter stubAgent stubEnv1 1000 (1 / 100) (199 / 200) 1 () () 1 1).solvedEp = some 1 := by
  have hs : (1 : ℚ) ≤ episodeScore stubAgent stubEnv1 1000 (initState () () 1) := by
    show (1 : ℚ) ≤ episodeScore stubAgent (constEnv 1) 1000 (initState () () 1)
    rw [episodeScore_const]
  exact ⟨hs,
    (C9_early_success stubAgent stubEnv1 1000 (1 / 100) (199 / 200) 1 () () 1).2.2 hs⟩

/-- C10: the scatter marker and its legend entry hinge on the Python
truthiness of both `success_x` and `success_y`: whenever the recorded
running average at the crossing is exactly 0 the marker and the legend
entry are omitted even though a crossing was detected, as on the score
list `[0]` with threshold `-1`. -/
theorem C10_marker_truthiness :
    (∀ scores w thresh p, plotSuccessXY scores w thresh = some p → p.2 = 0 →
        showSuccessMark scores w thresh = false
          ∧ plotLegends scores w thresh
              = ["Raw score", "Running average score", "Running median score"])
    ∧ plotSuccessXY [0] 100 (-1) = some (1, 0)
    ∧ showSuccessMark [0] 100 (-1) = false := by
  have hmain : ∀ scores w thresh p, plotSuccessXY scores w thresh = some p → p.2 = 0 →
      showSuccessMark scores w thresh = false
        ∧ plotLegends scores w thresh
            = ["Raw score", "Running average score", "Running median score"] := by
    intro scores w thresh p hxy hy
    have hmark : showSuccessMark scores w thresh = false := by
      unfold showSuccessMark
      rw [hxy]
      show (decide (p.1 ≠ 0) && decide (p.2 ≠ 0)) = false
      rw [hy]
      simp
    exact ⟨hmark, by unfold plotLegends; rw [hmark]; rfl⟩
  have hxy : plotSuccessXY [0] 100 (-1) = some (1, 0) := by
    have hra : raAt [0] 100 0 = 0 := by
      unfold raAt npMean
      norm_num
    show plotSuccessAux [0] 100 (-1) 1 = some (1, 0)
    unfold plotSuccessAux
    rw [hra]
    norm_num
    rfl
  exact ⟨hmain, hxy, (hmain [0] 100 (-1) (1, 0) hxy rfl).1⟩

/-- Witness for C10: the general truthiness statement applied at the
concrete crossing `(1, 0)` of the score list `[0]` with threshold `-1`. -/
theorem C10_marker_truthiness_witness :
    showSuccessMark [0] 100 (-1) = false
    ∧ plotLegends [0] 100 (-1)
        = ["Raw score", "Running average score", "Running median score"] :=
  C10_marker_truthiness.1 [0] 100 (-1) (1, 0) C10_marker_truthiness.2.1 rfl
